import Mathlib

/-!
# Verification of the `brauser` HTTP client wrapper

Shallow embedding of the Go package `brauser` (files `brauser.go` and the
unnamed near-duplicate variant).  The package wraps Go's `http.Client` with a
cookie jar, timeout configuration, a retry loop and cookie import/export.

Modelling conventions:
* `time.Duration` values are `Int` nanoseconds (`time.Second = 10^9` ns).
* Go `int` is `Int`.
* `[]byte` is `List Nat` (one `Nat` per byte).
* The network transport (what `w.cl.Do(req)` does on each attempt) is a
  function from the outgoing request and the zero-based attempt index to
  either an error or a response; `ioutil.ReadAll` of a response body is
  modelled by the `bodyData`/`bodyErr` fields of `Response`.
* Verbose logging (`logFetch`) only prints; it is not modelled, except that
  in the unnamed variant the evaluation of `resp.StatusCode` as an argument
  of `logFetch` is a dereference of `resp` and is modelled as such.
* Stateful collaborators (cookie jar, JSON codec, filesystem) are explicit
  values passed and returned.
-/

namespace Brauser

/-- Bytes of a Go `[]byte` value. -/
abbrev Bytes := List Nat

/-- Bytes of a string, for concrete scenarios. -/
def strBytes (s : String) : Bytes := s.data.map Char.toNat

/-- Nanoseconds in Go's `time.Second`. -/
def nsPerSecond : Int := 1000000000

/-- `type Options struct` of brauser.go (durations in nanoseconds). -/
structure Options where
  Timeout : Int
  TlsHandshakeTimeout : Int
  DialTimeout : Int
  Tries : Int
  Verbose : Bool
deriving Repr, DecidableEq

/-- The zero value `Options{}` of the Go struct. -/
def zeroOptions : Options :=
  { Timeout := 0, TlsHandshakeTimeout := 0, DialTimeout := 0,
    Tries := 0, Verbose := false }

/-- A cookie record (`http.Cookie`): the fields the serialization carries. -/
structure Cookie where
  name : String
  value : String
  path : String
  domain : String
  expires : Int
  secure : Bool
  httpOnly : Bool
deriving Repr, DecidableEq

/-- Model of the `net/http/cookiejar` collaborator: a store from a site URL
scope to the cookies held for it.  `setCookies` installs a record list for a
scope (shadowing any previous entry for that scope), `cookies` reads the
current list for a scope; this follows the spec's glossary description of the
jar as a store mapping a scope to its set of cookies. -/
structure Jar where
  store : List (String × List Cookie)
deriving Repr, DecidableEq

/-- The parsed form of a site URL (`url.Parse` result), kept abstract as the
URL text itself. -/
abbrev Url := String

/-- Cookies the jar holds scoped to a site URL. -/
def Jar.cookies (j : Jar) (u : Url) : List Cookie :=
  (j.store.lookup u).getD []

/-- Install cookies into the jar scoped to a site URL. -/
def Jar.setCookies (j : Jar) (u : Url) (cs : List Cookie) : Jar :=
  ⟨(u, cs) :: j.store⟩

/-- `type WebClient struct`: the `http.Client`'s jar (an interface value that
is absent when `cookiejar.New` failed and the error was discarded) and the
`Options` snapshot.  The `http.Client` timeout fields are configured from
`options` and carry no further state of their own.  The unused `lastTimeout`
field is omitted. -/
structure WebClient where
  jar : Option Jar
  options : Options
deriving Repr, DecidableEq

/-- `CreateWebClient(opts ...Options) WebClient`.  `jarResult` is the result
of the `cookiejar.New(nil)` collaborator call, whose error is discarded by
the Go code (`jar, _ := cookiejar.New(nil)`); on failure the client simply
carries no jar.  If the variadic list does not have exactly one element the
documented defaults are used, otherwise `opts[0]` is used. -/
def CreateWebClient (jarResult : Except String Jar) (opts : List Options) :
    WebClient :=
  let o : Options :=
    if opts.length ≠ 1 then
      { Timeout := 60 * nsPerSecond
        TlsHandshakeTimeout := 5 * nsPerSecond
        DialTimeout := 5 * nsPerSecond
        Tries := 1
        Verbose := false }
    else
      opts.headD zeroOptions
  { jar := jarResult.toOption, options := o }

/-- An outgoing `http.Request`: method, URL, header multimap and body.
Headers are modelled as the ordered list of (key, value) pairs; Go's
`http.Header` is a map from key to value slice and `Header.Add` appends to
the slice of its key, which is observed per key through `headerValues`. -/
structure Request where
  method : String
  url : String
  headers : List (String × String)
  body : Option Bytes
deriving Repr, DecidableEq

/-- `req.Header.Add(k, v)`: appends the value onto the values of the key,
never replacing existing values. -/
def headerAdd (h : List (String × String)) (k v : String) :
    List (String × String) :=
  h ++ [(k, v)]

/-- The ordered value slice a header multimap holds for a key
(`http.Header.Values`). -/
def headerValues (h : List (String × String)) (k : String) : List String :=
  (h.filter (fun p => p.1 == k)).map (fun p => p.2)

/-- Rough model of URL parsing failure: `url.Parse` rejects URLs containing
ASCII control characters. -/
def urlMalformed (s : String) : Bool :=
  s.data.any (fun c => c.toNat < 32)

/-- Model of the `http.NewRequest` collaborator: an empty method defaults to
GET, an invalid method or a malformed URL is an error, otherwise the request
starts with an empty header map. -/
def buildRequest (method path : String) (payload : Option Bytes) :
    Except String Request :=
  let m := if method.isEmpty then ("GET") else method
  if m.data.all Char.isAlpha = false then
    Except.error ("net/http: invalid method")
  else if urlMalformed path then
    Except.error ("parse: invalid control character in URL")
  else
    Except.ok { method := m, url := path, headers := [], body := payload }

/-- The loop in `fetch` applies every `params` entry to the request headers
via `req.Header.Add(k, p)`. -/
def requestWithHeaders (req : Request) (params : List (String × String)) :
    Request :=
  { req with
    headers := params.foldl (fun h p => headerAdd h p.1 p.2) req.headers }

/-- A transport response as `fetch` observes it: the status code, and the
outcome of `ioutil.ReadAll(resp.Body)` (`bodyData` is what `ReadAll`
returned, `bodyErr` its error if any). -/
structure Response where
  statusCode : Int
  bodyData : Bytes
  bodyErr : Option String
deriving Repr, DecidableEq

/-- The transport collaborator: what `w.cl.Do(req)` yields on the given
zero-based attempt.  An `Except.error` is a transport-level failure, in which
case Go's `http.Client.Do` returns a nil response. -/
abbrev Transport := Request → Nat → Except String Response

/-- What a call to `fetch` produces, together with its observable effects:
the total number of dispatch attempts, the list of `time.Sleep` durations in
order, and the `(data, err)` return pair (`data = none` is a nil slice). -/
structure FetchOutcome where
  attempts : Nat
  sleeps : List Int
  data : Option Bytes
  err : Option String
deriving Repr, DecidableEq

/-- The `retry:`/`goto retry` loop of `fetch` in brauser.go, starting at
attempt index `tryCount` with `remaining` retries left.  The Go loop guard is
`tryCount < w.options.Tries`; with `remaining = (Tries - tryCount).toNat`
that guard is exactly `remaining ≠ 0`, and each retry increments `tryCount`,
so `remaining` decreases by one — the loop is entered with `tryCount = 0` and
`remaining = Tries.toNat`.  On a transport error with retries left it sleeps
for `Timeout` and retries; with none left it returns the nil slice and the
last error.  On a dispatched response it returns `ReadAll`'s data and error
(the error check before the response is touched is this `match`). -/
def fetchLoop (o : Options) (req : Request) (t : Transport) :
    Nat → Nat → FetchOutcome
  | tryCount, remaining =>
    match t req tryCount with
    | Except.ok resp =>
      { attempts := 1, sleeps := [],
        data := some resp.bodyData, err := resp.bodyErr }
    | Except.error e =>
      match remaining with
      | 0 => { attempts := 1, sleeps := [], data := none, err := some e }
      | r + 1 =>
        let rest := fetchLoop o req t (tryCount + 1) r
        { attempts := rest.attempts + 1
          sleeps := o.Timeout :: rest.sleeps
          data := rest.data
          err := rest.err }

/-- `(w *WebClient) fetch(method, path, params, payload)` of brauser.go:
build the request, add the headers, then run the retry loop against the
transport. -/
def WebClient.fetch (w : WebClient) (method path : String)
    (params : List (String × String)) (payload : Option Bytes)
    (t : Transport) : FetchOutcome :=
  match buildRequest method path payload with
  | Except.error e =>
    { attempts := 0, sleeps := [], data := none, err := some e }
  | Except.ok req0 =>
    fetchLoop w.options (requestWithHeaders req0 params) t 0
      w.options.Tries.toNat

/-- `(w *WebClient) Get(path, params)`. -/
def WebClient.Get (w : WebClient) (path : String)
    (params : List (String × String)) (t : Transport) : FetchOutcome :=
  w.fetch ("GET") path params none t

/-- `(w *WebClient) Post(path, params, payload)`. -/
def WebClient.Post (w : WebClient) (path : String)
    (params : List (String × String)) (payload : Option Bytes)
    (t : Transport) : FetchOutcome :=
  w.fetch ("POST") path params payload t

/-- The loop of `fetch` in the unnamed variant (src/unnamed/part_000).  There
`defer resp.Body.Close()` and `w.logFetch(resp.StatusCode)` come before the
`if err != nil` check, so when the transport call fails (nil response) the
nil response is dereferenced and the call panics — modelled as `none`.  The
retry branch below those dereferences is consequently unreachable, so a
transport error at the current attempt is the only way not to return
normally. -/
def fetchLoopA (_o : Options) (req : Request) (t : Transport)
    (tryCount : Nat) : Option FetchOutcome :=
  match t req tryCount with
  | Except.error _ => none
  | Except.ok resp =>
    some { attempts := 1, sleeps := [],
           data := some resp.bodyData, err := resp.bodyErr }

/-- `fetch` of the unnamed variant. -/
def WebClient.fetchA (w : WebClient) (method path : String)
    (params : List (String × String)) (payload : Option Bytes)
    (t : Transport) : Option FetchOutcome :=
  match buildRequest method path payload with
  | Except.error e =>
    some { attempts := 0, sleeps := [], data := none, err := some e }
  | Except.ok req0 =>
    fetchLoopA w.options (requestWithHeaders req0 params) t 0

/-- The contents of a file: either a well-formed serialization of a cookie
list (what `json.Marshal` of a `[]*http.Cookie` produces) or arbitrary other
bytes.  The JSON codec is a collaborator; it is modelled as an abstract
injective serialization, which is all the repository code relies on. -/
inductive FileData where
  | cookieData (cs : List Cookie)
  | rawData (b : Bytes)
deriving Repr, DecidableEq

/-- `json.Marshal` of a cookie list (never fails for this type). -/
def marshalCookies (cs : List Cookie) : FileData :=
  FileData.cookieData cs

/-- `json.Unmarshal` of file contents into `[]*http.Cookie`: fails on
malformed records. -/
def unmarshalCookies : FileData → Except String (List Cookie)
  | FileData.cookieData cs => Except.ok cs
  | FileData.rawData _ => Except.error ("invalid character in JSON")

/-- Model of the filesystem collaborator: the files present, and which paths
are writable. -/
structure FS where
  files : List (String × FileData)
  writable : String → Bool

/-- `ioutil.ReadFile`: fails when the file is missing. -/
def FS.readFile (fs : FS) (file : String) : Except String FileData :=
  match fs.files.lookup file with
  | some d => Except.ok d
  | none => Except.error ("no such file or directory")

/-- `ioutil.WriteFile`: overwrites the file, fails when the path is not
writable. -/
def FS.writeFile (fs : FS) (file : String) (d : FileData) :
    Except String FS :=
  if fs.writable file then
    Except.ok { fs with files := (file, d) :: fs.files }
  else
    Except.error ("permission denied")

/-- `url.Parse` as brauser.go calls it. -/
def parseURL (site : String) : Except String Url :=
  if urlMalformed site then
    Except.error ("parse: invalid control character in URL")
  else
    Except.ok site

/-- `(w *WebClient) ExportCookies(file, site)`: parse the site URL, marshal
the jar's cookies for it, write them to the file.  The result pairs the
returned error with the filesystem after the call; `none` models the nil
dereference `w.cl.Jar.Cookies(u)` would be when the client carries no jar
(unreachable in practice, since `cookiejar.New(nil)` never fails). -/
def WebClient.ExportCookies (w : WebClient) (file site : String) (fs : FS) :
    Option (Except String Unit × FS) :=
  match parseURL site with
  | Except.error e => some (Except.error e, fs)
  | Except.ok u =>
    match w.jar with
    | none => none
    | some j =>
      match fs.writeFile file (marshalCookies (j.cookies u)) with
      | Except.error e => some (Except.error e, fs)
      | Except.ok fs2 => some (Except.ok (), fs2)

/-- `(w *WebClient) ImportCookies(file, site)`: parse the site URL, read the
file, unmarshal the records, install them in the jar scoped to the site.
The result pairs the returned error with the client after the call; `none`
models the nil dereference on `SetCookies` when the client carries no jar. -/
def WebClient.ImportCookies (w : WebClient) (file site : String) (fs : FS) :
    Option (Except String Unit × WebClient) :=
  match parseURL site with
  | Except.error e => some (Except.error e, w)
  | Except.ok u =>
    match fs.readFile file with
    | Except.error e => some (Except.error e, w)
    | Except.ok d =>
      match unmarshalCookies d with
      | Except.error e => some (Except.error e, w)
      | Except.ok cs =>
        match w.jar with
        | none => none
        | some j =>
          some (Except.ok (), { w with jar := some (j.setCookies u cs) })

/-! ## Lemmas about the retry loop -/

/-- Against a transport failing on every attempt, the loop performs one
dispatch per remaining retry plus the final one, sleeps `Timeout` between
consecutive attempts, and ends with nil data and the last error. -/
theorem fetchLoop_all_fail (o : Options) (req : Request) (t : Transport)
    (e : Nat → String) (ht : ∀ k, t req k = Except.error (e k)) :
    ∀ remaining tryCount,
      fetchLoop o req t tryCount remaining =
        { attempts := remaining + 1
          sleeps := List.replicate remaining o.Timeout
          data := none
          err := some (e (tryCount + remaining)) } := by
  intro remaining
  induction remaining with
  | zero =>
    intro tc
    unfold fetchLoop
    rw [ht tc]
    simp
  | succ r ih =>
    intro tc
    unfold fetchLoop
    rw [ht tc]
    simp only [ih (tc + 1), List.replicate_succ]
    have h1 : tc + 1 + r = tc + (r + 1) := by omega
    rw [h1]

/-- If the transport fails on the first `m` attempts and succeeds on attempt
`m`, and at least `m` retries remain, the loop returns the response's
`ReadAll` data and error after exactly `m + 1` dispatches and `m` sleeps. -/
theorem fetchLoop_first_success_at (o : Options) (req : Request)
    (t : Transport) (resp : Response) :
    ∀ (m tryCount remaining : Nat), m ≤ remaining →
      (∀ k, k < m → ∃ er, t req (tryCount + k) = Except.error er) →
      t req (tryCount + m) = Except.ok resp →
      fetchLoop o req t tryCount remaining =
        { attempts := m + 1
          sleeps := List.replicate m o.Timeout
          data := some resp.bodyData
          err := resp.bodyErr } := by
  intro m
  induction m with
  | zero =>
    intro tc rem _ _ hok
    unfold fetchLoop
    rw [show t req tc = Except.ok resp from hok]
    simp
  | succ m ih =>
    intro tc rem hm hfail hok
    cases rem with
    | zero => omega
    | succ r =>
      obtain ⟨er, her⟩ := hfail 0 (Nat.succ_pos m)
      unfold fetchLoop
      rw [show t req tc = Except.error er from by simpa using her]
      have hfail2 : ∀ k, k < m → ∃ e2, t req (tc + 1 + k) = Except.error e2 := by
        intro k hk
        have h1 : tc + 1 + k = tc + (k + 1) := by omega
        rw [h1]
        exact hfail (k + 1) (by omega)
      have hok2 : t req (tc + 1 + m) = Except.ok resp := by
        have h1 : tc + 1 + m = tc + (m + 1) := by omega
        rw [h1]
        exact hok
      simp only [ih (tc + 1) r (by omega) hfail2 hok2, List.replicate_succ]

/-- Applying the `params` entries folds `headerAdd` from the left, which is
appending the entries in order. -/
theorem foldl_headerAdd (params : List (String × String)) :
    ∀ h : List (String × String),
      params.foldl (fun h2 p => headerAdd h2 p.1 p.2) h = h ++ params := by
  induction params with
  | nil => intro h; simp
  | cons p ps ih =>
    intro h
    rw [List.foldl_cons, ih]
    simp [headerAdd]

/-- `headerValues` distributes over appending header entries. -/
theorem headerValues_append (h1 h2 : List (String × String)) (k : String) :
    headerValues (h1 ++ h2) k = headerValues h1 k ++ headerValues h2 k := by
  simp [headerValues, List.filter_append]

/-! ## The claims -/

/-- C1: for every `Tries = N ≥ 0`, a call to `fetch` against a transport that
fails on every attempt makes exactly `N + 1` dispatch attempts, sleeps
exactly `N` times for exactly the configured `Timeout` duration, and returns
nil data together with the last transport error. -/
theorem fetch_always_failing_transport (w : WebClient) (method path : String)
    (params : List (String × String)) (payload : Option Bytes)
    (t : Transport) (e : Nat → String) (N : Nat) (req : Request)
    (hreq : buildRequest method path payload = Except.ok req)
    (hN : w.options.Tries = (N : Int))
    (ht : ∀ r k, t r k = Except.error (e k)) :
    w.fetch method path params payload t =
      { attempts := N + 1
        sleeps := List.replicate N w.options.Timeout
        data := none
        err := some (e N) } := by
  unfold WebClient.fetch
  rw [hreq]
  have h := fetchLoop_all_fail w.options (requestWithHeaders req params) t e
    (fun k => ht _ k) w.options.Tries.toNat 0
  rw [hN] at h ⊢
  simpa using h

/-- C2: if the first dispatch attempt succeeds (and the body drains without
error), `fetch` returns the entire response body and a nil error after one
attempt and no sleep, for every configured `Tries` value. -/
theorem fetch_first_attempt_success (w : WebClient) (method path : String)
    (params : List (String × String)) (payload : Option Bytes)
    (t : Transport) (resp : Response) (req : Request)
    (hreq : buildRequest method path payload = Except.ok req)
    (ht : ∀ r, t r 0 = Except.ok resp)
    (hbody : resp.bodyErr = none) :
    w.fetch method path params payload t =
      { attempts := 1, sleeps := []
        data := some resp.bodyData, err := none } := by
  unfold WebClient.fetch
  rw [hreq]
  have h := fetchLoop_first_success_at w.options
    (requestWithHeaders req params) t resp 0 0 w.options.Tries.toNat
    (Nat.zero_le _) (by intro k hk; omega) (ht _)
  rw [hbody] at h
  simpa using h

/-- C3: if the transport fails on the first `m` attempts and succeeds on
attempt `m` with the retry budget not yet exhausted (`m ≤ Tries`), `fetch`
stops retrying at the first success: it returns that response's body with a
nil error after exactly `m + 1` dispatch attempts. -/
theorem fetch_stops_at_first_success (w : WebClient) (method path : String)
    (params : List (String × String)) (payload : Option Bytes)
    (t : Transport) (e : Nat → String) (resp : Response) (req : Request)
    (m : Nat)
    (hreq : buildRequest method path payload = Except.ok req)
    (hfail : ∀ r k, k < m → t r k = Except.error (e k))
    (hok : ∀ r, t r m = Except.ok resp)
    (hbody : resp.bodyErr = none)
    (hm : (m : Int) ≤ w.options.Tries) :
    w.fetch method path params payload t =
      { attempts := m + 1
        sleeps := List.replicate m w.options.Timeout
        data := some resp.bodyData, err := none } := by
  unfold WebClient.fetch
  rw [hreq]
  have hm2 : m ≤ w.options.Tries.toNat := by omega
  have h := fetchLoop_first_success_at w.options
    (requestWithHeaders req params) t resp m 0 w.options.Tries.toNat hm2
    (by intro k hk; exact ⟨e k, by simpa using hfail _ k hk⟩)
    (by simpa using hok (requestWithHeaders req params))
  rw [hbody] at h
  simpa using h

/-- C5: when a dispatch attempt succeeds (after `m` failed attempts within
the budget) but draining the body fails, `fetch` returns that read error
immediately: exactly `m + 1` dispatch attempts and `m` sleeps happen, none
after the read error, regardless of how many attempts remain in the `Tries`
budget. -/
theorem fetch_body_read_error_immediate (w : WebClient) (method path : String)
    (params : List (String × String)) (payload : Option Bytes)
    (t : Transport) (e : Nat → String) (resp : Response) (req : Request)
    (m : Nat) (er : String)
    (hreq : buildRequest method path payload = Except.ok req)
    (hfail : ∀ r k, k < m → t r k = Except.error (e k))
    (hok : ∀ r, t r m = Except.ok resp)
    (hbody : resp.bodyErr = some er)
    (hm : (m : Int) ≤ w.options.Tries) :
    w.fetch method path params payload t =
      { attempts := m + 1
        sleeps := List.replicate m w.options.Timeout
        data := some resp.bodyData, err := some er } := by
  unfold WebClient.fetch
  rw [hreq]
  have hm2 : m ≤ w.options.Tries.toNat := by omega
  have h := fetchLoop_first_success_at w.options
    (requestWithHeaders req params) t resp m 0 w.options.Tries.toNat hm2
    (by intro k hk; exact ⟨e k, by simpa using hfail _ k hk⟩)
    (by simpa using hok (requestWithHeaders req params))
  rw [hbody] at h
  simpa using h

/-- C4: in the unnamed variant (src/unnamed/part_000) the response body is
closed and the status code read before the error is checked, so on a
transport failure the error branch operates on an absent (nil) response and
the call panics (`none`); the brauser.go variant checks the error before
touching the response and returns the error normally (shown here for an
exhausted budget, `Tries ≤ 0`). -/
theorem fetch_variantA_derefs_absent_response (w : WebClient)
    (method path : String) (params : List (String × String))
    (payload : Option Bytes) (t : Transport) (er : String) (req : Request)
    (hreq : buildRequest method path payload = Except.ok req)
    (ht : ∀ r, t r 0 = Except.error er) :
    w.fetchA method path params payload t = none ∧
    (w.options.Tries ≤ 0 →
      w.fetch method path params payload t =
        { attempts := 1, sleeps := [], data := none, err := some er }) := by
  constructor
  · simp only [WebClient.fetchA, hreq, fetchLoopA, ht]
  · intro hTries
    have h0 : w.options.Tries.toNat = 0 := by omega
    simp only [WebClient.fetch, hreq, h0, fetchLoop, ht]

/-- C9: every header entry passed to `fetch` is appended onto the outgoing
request's headers rather than replacing existing values: for every key, the
outgoing value slice is the request's existing values followed by all the
values supplied for that key, so nothing is silently overwritten. -/
theorem fetch_headers_appended (req : Request)
    (params : List (String × String)) (k : String) :
    headerValues (requestWithHeaders req params).headers k =
      headerValues req.headers k ++ headerValues params k := by
  unfold requestWithHeaders
  simp only [foldl_headerAdd, headerValues_append]

/-- C6: `CreateWebClient` never fails — it returns a client for every
variadic argument list, and the construction (in particular its options) is
unaffected by a cookie-jar creation failure; with no options the constructed
client carries exactly the documented defaults: `Timeout` 60 s,
`TlsHandshakeTimeout` 5 s, `DialTimeout` 5 s, `Tries` 1, `Verbose` false
(durations in nanoseconds). -/
theorem createWebClient_never_fails_defaults (jr : Except String Jar)
    (opts : List Options) :
    (∃ w : WebClient, CreateWebClient jr opts = w) ∧
    (∀ e, (CreateWebClient (Except.error e) opts).options =
      (CreateWebClient jr opts).options) ∧
    (CreateWebClient jr []).options =
      { Timeout := 60000000000
        TlsHandshakeTimeout := 5000000000
        DialTimeout := 5000000000
        Tries := 1
        Verbose := false } :=
  ⟨⟨_, rfl⟩, fun _ => rfl, rfl⟩

/-- C10: whenever the number of `Options` arguments is not exactly one —
in particular when two or more are passed — `CreateWebClient` silently
discards them all and uses the documented defaults, the same as a call with
no options. -/
theorem createWebClient_non_single_options_defaults (jr : Except String Jar)
    (opts : List Options) (h : opts.length ≠ 1) :
    (CreateWebClient jr opts).options = (CreateWebClient jr []).options ∧
    (CreateWebClient jr opts).options =
      { Timeout := 60000000000
        TlsHandshakeTimeout := 5000000000
        DialTimeout := 5000000000
        Tries := 1
        Verbose := false } := by
  constructor <;> simp [CreateWebClient, h]
  norm_num [nsPerSecond]

/-- C7: exporting the cookies of a site URL to a file and importing that
file back for the same site URL restores an equivalent cookie set in the
jar — here the restored set is equal on the nose, which is the round-trip
law modulo expiry-format normalization (the modelled serialization is
exact). -/
theorem export_import_roundtrip (w : WebClient) (j : Jar) (file site : String)
    (fs : FS) (hjar : w.jar = some j) (hw : fs.writable file = true)
    (hurl : urlMalformed site = false) :
    ∃ fs2 w2 j2,
      w.ExportCookies file site fs = some (Except.ok (), fs2) ∧
      w.ImportCookies file site fs2 = some (Except.ok (), w2) ∧
      w2.jar = some j2 ∧
      j2.cookies site = j.cookies site := by
  refine ⟨{ fs with
      files := (file, marshalCookies (j.cookies site)) :: fs.files },
    { w with jar := some ((j.setCookies site (j.cookies site))) },
    j.setCookies site (j.cookies site), ?_, ?_, rfl, ?_⟩
  · simp [WebClient.ExportCookies, parseURL, hurl, hjar, FS.writeFile, hw]
  · simp [WebClient.ImportCookies, parseURL, hurl, hjar, FS.readFile,
      marshalCookies, unmarshalCookies]
  · simp [Jar.cookies, Jar.setCookies]

/-- C8: `ImportCookies` returns an error whenever the site URL is malformed,
the file is missing, or the file contains malformed cookie records; on every
such error the returned client — and hence its cookie jar — is exactly the
caller's, so no partial cookie installation happens. -/
theorem importCookies_error_jar_unchanged (w : WebClient) (file site : String)
    (fs : FS)
    (h : urlMalformed site = true ∨ fs.files.lookup file = none ∨
      ∃ b, fs.files.lookup file = some (FileData.rawData b)) :
    ∃ e, w.ImportCookies file site fs = some (Except.error e, w) := by
  rcases h with h | h | ⟨b, h⟩
  · exact ⟨("parse: invalid control character in URL"),
      by simp [WebClient.ImportCookies, parseURL, h]⟩
  · cases hu : urlMalformed site
    · exact ⟨("no such file or directory"), by
        simp [WebClient.ImportCookies, parseURL, hu, FS.readFile, h]⟩
    · exact ⟨("parse: invalid control character in URL"),
        by simp [WebClient.ImportCookies, parseURL, hu]⟩
  · cases hu : urlMalformed site
    · exact ⟨("invalid character in JSON"), by
        simp [WebClient.ImportCookies, parseURL, hu, FS.readFile, h,
          unmarshalCookies]⟩
    · exact ⟨("parse: invalid control character in URL"),
        by simp [WebClient.ImportCookies, parseURL, hu]⟩

/-! ## Concrete scenario values for the witnesses -/

/-- A transport stub that always fails with error `E`. -/
def alwaysFailTransport : Transport := fun _ _ => Except.error ("E")

/-- A transport stub returning status 200 and body `hello`. -/
def helloTransport : Transport :=
  fun _ _ =>
    Except.ok
      { statusCode := 200
        bodyData := strBytes ("hello")
        bodyErr := none }

/-- A transport stub that fails twice, then succeeds with body `ok`. -/
def failTwiceTransport : Transport := fun _ k =>
  if k < 2 then Except.error ("boom")
  else
    Except.ok
      { statusCode := 200
        bodyData := strBytes ("ok")
        bodyErr := none }

/-- A transport stub whose response body fails while being drained. -/
def readErrorTransport : Transport :=
  fun _ _ =>
    Except.ok
      { statusCode := 200
        bodyData := strBytes ("par")
        bodyErr := some ("unexpected EOF") }

/-- A client constructed with the default options. -/
def clientDefault : WebClient := CreateWebClient (Except.ok ⟨[]⟩) []

/-- Custom options with `Tries = 2`. -/
def optsTries2 : Options :=
  { Timeout := 1000, TlsHandshakeTimeout := 5, DialTimeout := 5,
    Tries := 2, Verbose := false }

/-- A client constructed with `optsTries2`. -/
def clientTries2 : WebClient := CreateWebClient (Except.ok ⟨[]⟩) [optsTries2]

/-- Custom options with `Tries = 0`. -/
def optsTries0 : Options :=
  { Timeout := 7, TlsHandshakeTimeout := 5, DialTimeout := 5,
    Tries := 0, Verbose := false }

/-- A client constructed with `optsTries0`. -/
def clientTries0 : WebClient := CreateWebClient (Except.ok ⟨[]⟩) [optsTries0]

/-- A jar holding one cookie for the example site. -/
def jarEx : Jar :=
  ⟨[(("http://example.test"),
     [{ name := ("session"), value := ("abc123"), path := ("/"),
        domain := ("example.test"), expires := 0, secure := false,
        httpOnly := false }])]⟩

/-- A client whose jar is `jarEx`. -/
def clientJarEx : WebClient := CreateWebClient (Except.ok jarEx) []

/-- An empty filesystem on which every path is writable. -/
def fsWritable : FS := ⟨[], fun _ => true⟩

/-! ## Witnesses -/

/-- Witness for C1: defaults (`Tries = 1`), a transport that always fails
with `E`: two attempts, one sleep of the configured 60 s timeout, nil data,
last error `E`. -/
theorem fetch_always_failing_transport_witness :
    clientDefault.fetch ("GET") ("https://example.test/x") [] none
        alwaysFailTransport =
      { attempts := 2, sleeps := [60000000000], data := none,
        err := some ("E") } := by
  have h := fetch_always_failing_transport clientDefault ("GET")
    ("https://example.test/x") [] none alwaysFailTransport
    (fun _ => ("E")) 1
    { method := ("GET"), url := ("https://example.test/x"), headers := [],
      body := none }
    rfl rfl (fun _ _ => rfl)
  exact h

/-- Witness for C2: defaults, `Get` against a transport stub returning
status 200 and body `hello` yields `([]byte("hello"), nil)` in one attempt. -/
theorem fetch_first_attempt_success_witness :
    clientDefault.Get ("https://example.test/ok") [] helloTransport =
      { attempts := 1, sleeps := [], data := some (strBytes ("hello")),
        err := none } := by
  have h := fetch_first_attempt_success clientDefault ("GET")
    ("https://example.test/ok") [] none helloTransport
    { statusCode := 200, bodyData := strBytes ("hello"), bodyErr := none }
    { method := ("GET"), url := ("https://example.test/ok"), headers := [],
      body := none }
    rfl (fun _ => rfl) rfl
  exact h

/-- Witness for C3: `Tries = 2`, a transport that fails twice then succeeds
with body `ok`: `("ok", nil)` after exactly 3 attempts. -/
theorem fetch_stops_at_first_success_witness :
    clientTries2.fetch ("GET") ("https://example.test/ok") [] none
        failTwiceTransport =
      { attempts := 3, sleeps := [1000, 1000],
        data := some (strBytes ("ok")), err := none } := by
  have h := fetch_stops_at_first_success clientTries2 ("GET")
    ("https://example.test/ok") [] none failTwiceTransport
    (fun _ => ("boom"))
    { statusCode := 200, bodyData := strBytes ("ok"), bodyErr := none }
    { method := ("GET"), url := ("https://example.test/ok"), headers := [],
      body := none }
    2 rfl
    (fun r k hk => by simp [failTwiceTransport, hk])
    (fun r => by simp [failTwiceTransport])
    rfl (by decide)
  exact h

/-- Witness for C5: defaults, first attempt succeeds but draining the body
fails: the read error is returned after one attempt and no sleep. -/
theorem fetch_body_read_error_immediate_witness :
    clientDefault.fetch ("GET") ("https://example.test/big") [] none
        readErrorTransport =
      { attempts := 1, sleeps := [], data := some (strBytes ("par")),
        err := some ("unexpected EOF") } := by
  have h := fetch_body_read_error_immediate clientDefault ("GET")
    ("https://example.test/big") [] none readErrorTransport
    (fun _ => ("x"))
    { statusCode := 200, bodyData := strBytes ("par"),
      bodyErr := some ("unexpected EOF") }
    { method := ("GET"), url := ("https://example.test/big"), headers := [],
      body := none }
    0 ("unexpected EOF") rfl
    (fun r k hk => absurd hk (Nat.not_lt_zero k))
    (fun r => rfl) rfl (by decide)
  exact h

/-- Witness for C4: `Tries = 0`, a transport failing immediately: the
unnamed variant panics on the absent response while brauser.go returns the
error. -/
theorem fetch_variantA_derefs_absent_response_witness :
    clientTries0.fetchA ("GET") ("https://example.test/x") [] none
        alwaysFailTransport = none ∧
    clientTries0.fetch ("GET") ("https://example.test/x") [] none
        alwaysFailTransport =
      { attempts := 1, sleeps := [], data := none, err := some ("E") } := by
  have h := fetch_variantA_derefs_absent_response clientTries0 ("GET")
    ("https://example.test/x") [] none alwaysFailTransport ("E")
    { method := ("GET"), url := ("https://example.test/x"), headers := [],
      body := none }
    rfl (fun _ => rfl)
  exact ⟨h.1, h.2 (by decide)⟩

/-- Witness for C7: export then import of the example jar's cookies for the
example site restores the same cookie set. -/
theorem export_import_roundtrip_witness :
    ∃ fs2 w2 j2,
      clientJarEx.ExportCookies ("cookies.json") ("http://example.test")
          fsWritable = some (Except.ok (), fs2) ∧
      clientJarEx.ImportCookies ("cookies.json") ("http://example.test")
          fs2 = some (Except.ok (), w2) ∧
      w2.jar = some j2 ∧
      j2.cookies ("http://example.test") =
        jarEx.cookies ("http://example.test") :=
  export_import_roundtrip clientJarEx jarEx ("cookies.json")
    ("http://example.test") fsWritable rfl rfl (by decide)

/-- Witness for C8: importing from a missing file returns an error and
leaves the client (and its jar) unchanged. -/
theorem importCookies_error_jar_unchanged_witness :
    ∃ e, clientJarEx.ImportCookies ("missing.json") ("http://example.test")
        fsWritable = some (Except.error e, clientJarEx) :=
  importCookies_error_jar_unchanged clientJarEx ("missing.json")
    ("http://example.test") fsWritable (Or.inr (Or.inl rfl))

/-- Witness for C10: two `Options` values are silently discarded and the
defaults are used. -/
theorem createWebClient_non_single_options_defaults_witness :
    (CreateWebClient (Except.ok ⟨[]⟩) [optsTries2, optsTries0]).options =
      (CreateWebClient (Except.ok ⟨[]⟩) []).options ∧
    (CreateWebClient (Except.ok ⟨[]⟩) [optsTries2, optsTries0]).options =
      { Timeout := 60000000000
        TlsHandshakeTimeout := 5000000000
        DialTimeout := 5000000000
        Tries := 1
        Verbose := false } :=
  createWebClient_non_single_options_defaults (Except.ok ⟨[]⟩)
    [optsTries2, optsTries0] (by decide)

end Brauser
